import Mathlib

/-!
A shallow embedding of the transaction execution environment
(`src/ethcore/src/externalities.rs`) of the parity repository, together
with proofs about the claims of the specification.

Machine integers (`U256`, `H256`, 20-byte addresses, `u64` block numbers)
are modelled as `Nat`; byte buffers as `List Nat` (entries below 256).
The state backend, the nested executor dispatcher and a few protocol
constants are outside the given sources (interface only); they are
modelled from the specification and each such definition is marked
`Modelled from the spec:`.  Everything else is translated directly from
`externalities.rs`.
-/

namespace Parity

abbrev U256 := Nat

abbrev H256 := Nat

abbrev Address := Nat

abbrev Bytes := List Nat

/-- Modelled from the spec: the evm error kinds (spec section 7); the enum
itself lives in `evm/evm.rs`, outside the given sources. -/
inductive EvmError where
  | OutOfGas
  | BadJumpDestination
  | BadInstruction
  | StackUnderflow
  | OutOfStack
  | MutableCallInStaticContext
  | BuiltIn (name : String)
  | Wasm (detail : String)
  | Internal (detail : String)
  deriving Repr, DecidableEq

/-- Modelled from the spec: call kinds (`types/executed.rs` is outside the
sources). -/
inductive CallType where
  | None
  | Call
  | CallCode
  | DelegateCall
  | StaticCall
  deriving Repr, DecidableEq

/-- Value variant of an action: `Transfer` moves funds, `Apparent` only
exposes a value to the guest (`action_params.rs` is outside the sources;
modelled from the spec). -/
inductive ActionValue where
  | Transfer (v : U256)
  | Apparent (v : U256)
  deriving Repr, DecidableEq

/-- Modelled from the spec: the cleanup-mode knob of the state facade.
The mutable touched-set carried by `TrackTouched` in the source is not
modelled; no claim depends on it. -/
inductive CleanupMode where
  | ForceCreate
  | NoEmpty
  | TrackTouched
  deriving Repr, DecidableEq

/-- Modelled from the spec: address-derivation schemes for `create`
(spec section 4.3). -/
inductive CreateContractAddress where
  | FromSenderAndNonce
  | FromSenderSaltAndCodeHash (salt : H256)
  | FromSenderAndCodeHash
  deriving Repr, DecidableEq

/-- Fee and limit table (spec section 4.1), restricted to the fields the
embedded operations read. -/
structure Schedule where
  create_data_gas : Nat
  create_data_limit : Nat
  exceptional_failed_code_deposit : Bool
  no_empty : Bool
  kill_dust : Bool
  deriving Repr, DecidableEq

/-- Per-block environment snapshot (`env_info.rs` is outside the sources;
fields as listed by the spec and used by `externalities.rs`). -/
structure EnvInfo where
  number : Nat
  author : Address
  timestamp : Nat
  difficulty : U256
  last_hashes : List H256
  gas_used : U256
  gas_limit : U256
  deriving Repr, DecidableEq

/-- Modelled from the spec: engine-supplied protocol constants
(config surface, spec section 6). -/
structure EngineParams where
  eip210_transition : Nat
  eip210_contract_address : Address
  eip210_contract_gas : U256
  deriving Repr, DecidableEq

structure LogEntry where
  address : Address
  topics : List H256
  data : Bytes
  deriving Repr, DecidableEq

/-- Per-transaction accumulator (spec section 3).  The suicide set of the
source is a hash set; it is modelled as a list with `List.insert`. -/
structure Substate where
  logs : List LogEntry
  suicides : List Address
  contracts_created : List Address
  sstore_clears_count : U256
  touched : List Address
  deriving Repr, DecidableEq

/-- Origin info snapshot, populated from action params
(`externalities.rs`, `OriginInfo`). -/
structure OriginInfo where
  address : Address
  origin : Address
  gas_price : U256
  value : U256
  deriving Repr, DecidableEq

/-- The per-call descriptor (`action_params.rs` is outside the sources;
fields as constructed in `externalities.rs`). -/
structure ActionParams where
  code_address : Address
  code_hash : Option H256
  address : Address
  sender : Address
  origin : Address
  gas : U256
  gas_price : U256
  value : ActionValue
  code : Option Bytes
  data : Option Bytes
  call_type : CallType
  deriving Repr, DecidableEq

/-- Modelled from the spec: one account of the world state. -/
structure Account where
  balance : U256
  nonce : U256
  code : Option Bytes
  code_hash : H256
  storage : H256 → H256

/-- Modelled from the spec: the state facade (spec section 6).  `corrupt`
marks addresses on which every backend operation fails with `Internal`
(backend corruption, spec section 4.2); `hashFn` abstracts keccak for
`init_code`; `cleanup_trace` is a ghost field recording the cleanup mode
passed to each balance-mutating call, so that theorems can observe which
mode an operation selected. -/
structure State where
  accounts : Address → Account
  corrupt : Address → Bool
  hashFn : Bytes → H256
  cleanup_trace : List CleanupMode

/-- Replaces the account stored at `a` by `f` of it. -/
def State.update (s : State) (a : Address) (f : Account → Account) : State :=
  { s with accounts := fun x => if x = a then f (s.accounts x) else s.accounts x }

/-- Modelled from the spec: `balance(addr) → Word | Err`. -/
def State.balance (s : State) (a : Address) : Except EvmError U256 :=
  if s.corrupt a then Except.error (EvmError.Internal "state db corruption")
  else Except.ok (s.accounts a).balance

/-- Modelled from the spec: `nonce(addr) → Word | Err`. -/
def State.nonce (s : State) (a : Address) : Except EvmError U256 :=
  if s.corrupt a then Except.error (EvmError.Internal "state db corruption")
  else Except.ok (s.accounts a).nonce

/-- Modelled from the spec: `inc_nonce(addr) → () | Err`. -/
def State.inc_nonce (s : State) (a : Address) : Except EvmError State :=
  if s.corrupt a then Except.error (EvmError.Internal "state db corruption")
  else Except.ok (s.update a fun ac => { ac with nonce := ac.nonce + 1 })

/-- Modelled from the spec: `code(addr) → shared bytes | Err`. -/
def State.code (s : State) (a : Address) : Except EvmError (Option Bytes) :=
  if s.corrupt a then Except.error (EvmError.Internal "state db corruption")
  else Except.ok (s.accounts a).code

/-- Modelled from the spec: `code_hash(addr) → Hash | Err`. -/
def State.code_hash (s : State) (a : Address) : Except EvmError H256 :=
  if s.corrupt a then Except.error (EvmError.Internal "state db corruption")
  else Except.ok (s.accounts a).code_hash

/-- Modelled from the spec: `storage_at(addr, key) → Hash | Err`. -/
def State.storage_at (s : State) (a : Address) (key : H256) : Except EvmError H256 :=
  if s.corrupt a then Except.error (EvmError.Internal "state db corruption")
  else Except.ok ((s.accounts a).storage key)

/-- Modelled from the spec: `set_storage(addr, key, value) → () | Err`. -/
def State.set_storage (s : State) (a : Address) (key value : H256) : Except EvmError State :=
  if s.corrupt a then Except.error (EvmError.Internal "state db corruption")
  else Except.ok (s.update a fun ac =>
    { ac with storage := fun x => if x = key then value else ac.storage x })

/-- Modelled from the spec: `init_code(addr, bytes) → () | Err`;
installs the bytes as the account's code. -/
def State.init_code (s : State) (a : Address) (c : Bytes) : Except EvmError State :=
  if s.corrupt a then Except.error (EvmError.Internal "state db corruption")
  else Except.ok (s.update a fun ac => { ac with code := some c, code_hash := s.hashFn c })

/-- Modelled from the spec: `sub_balance(addr, amount, cleanup_mode)`.
The mode is recorded in the ghost `cleanup_trace`. -/
def State.sub_balance (s : State) (a : Address) (amount : U256) (mode : CleanupMode) :
    Except EvmError State :=
  if s.corrupt a then Except.error (EvmError.Internal "state db corruption")
  else Except.ok
    { s.update a (fun ac => { ac with balance := ac.balance - amount }) with
      cleanup_trace := s.cleanup_trace ++ [mode] }

/-- Modelled from the spec: `transfer_balance(from, to, amount, cleanup_mode)`;
subtracts from the source account and adds to the destination.  The mode is
recorded in the ghost `cleanup_trace`. -/
def State.transfer_balance (s : State) (src dst : Address) (amount : U256)
    (mode : CleanupMode) : Except EvmError State :=
  if s.corrupt src || s.corrupt dst then
    Except.error (EvmError.Internal "state db corruption")
  else
    let s1 := s.update src fun ac => { ac with balance := ac.balance - amount }
    let s2 := s1.update dst fun ac => { ac with balance := ac.balance + amount }
    Except.ok { s2 with cleanup_trace := s.cleanup_trace ++ [mode] }

/-- Modelled from the spec: the sentinel unsigned sender
(`types/transaction.rs` is outside the sources); kept as a fixed address. -/
def UNSIGNED_SENDER : Address := 2 ^ 160 - 1

/-- Modelled from the spec: `Substate::to_cleanup_mode`, the cleanup mode
derived from the substate and the schedule (`state/substate.rs` is outside
the sources); dust killing selects touched-account tracking, otherwise the
`no_empty` flag of the schedule decides. -/
def Substate.to_cleanup_mode (_ss : Substate) (sch : Schedule) : CleanupMode :=
  if sch.kill_dust then CleanupMode.TrackTouched
  else if sch.no_empty then CleanupMode.NoEmpty
  else CleanupMode.ForceCreate

/-- Modelled from the spec: the three frame terminals of a dispatched child
execution (spec section 4.5): `done` is `Returning` (with `gas_left` and the
frame's return data), `reverted` is `Reverting`, `failed` is `Failing`. -/
inductive FrameOutcome where
  | done (gas_left : U256) (data : Bytes)
  | reverted (gas_left : U256) (data : Bytes)
  | failed (e : EvmError)
  deriving Repr, DecidableEq

/-- Modelled from the spec: the result enum of `create`
(`evm/ext.rs` is outside the sources; variants per spec section 4.2). -/
inductive ContractCreateResult where
  | Created (address : Address) (gas_left : U256)
  | Reverted (gas_left : U256) (data : Bytes)
  | Failed
  deriving Repr, DecidableEq

/-- Modelled from the spec: the result enum of `call`
(`evm/ext.rs` is outside the sources; variants per spec section 4.2). -/
inductive MessageCallResult where
  | Success (gas_left : U256) (data : Bytes)
  | Reverted (gas_left : U256) (data : Bytes)
  | Failed
  deriving Repr, DecidableEq

/-- Modelled from the spec: the nested executor dispatcher
(interface only, spec sections 2 and 4.5) and the address-derivation
function `contract_address` (`executive.rs` is outside the sources, and
keccak is kept abstract).  The outcome functions give the terminal of a
dispatched child execution for given action parameters; their state
effects are not modelled. -/
structure ExecOracle where
  create_outcome : ActionParams → FrameOutcome
  call_outcome : ActionParams → FrameOutcome
  contract_address : CreateContractAddress → Address → U256 → Bytes → Address × Option H256

/-- `BytesRef`: a fixed-capacity slice or a growable buffer, modelled by
value. -/
inductive BytesRefM where
  | Fixed (buf : Bytes)
  | Flexible (buf : Bytes)
  deriving Repr, DecidableEq

/-- Policy for handling output data on `RETURN` (`externalities.rs`,
`OutputPolicy`); the mutable copy sink is modelled by value. -/
inductive OutputPolicy where
  | Return (r : BytesRefM) (copy : Option Bytes)
  | InitContract (copy : Option Bytes)
  deriving Repr, DecidableEq

/-- The execution environment of one frame (`externalities.rs`,
`Externalities`).  Tracers are elided; the engine is represented by its
protocol constants and the schedule it selected; the nested executor is
the `exec` oracle. -/
structure Externalities where
  state : State
  env_info : EnvInfo
  engine_params : EngineParams
  depth : Nat
  origin_info : OriginInfo
  substate : Substate
  schedule : Schedule
  output : OutputPolicy
  static_flag : Bool
  exec : ExecOracle

/-- Big-endian 32-byte serialization of a word (`H256::from(number)`). -/
def natToBeBytes32 (n : Nat) : Bytes :=
  (List.range 32).map (fun i => n / 256 ^ (31 - i) % 256)

/-- Big-endian interpretation of a byte buffer as a number. -/
def beBytesToNat (bs : Bytes) : Nat :=
  bs.foldl (fun acc b => acc * 256 + b) 0

/-- Contents of a zero-initialized fixed buffer of capacity `cap` after the
child's return data `d` is written through the `Fixed` output policy:
the first `min cap d.length` bytes of `d`, the rest left zero. -/
def writeFixed (cap : Nat) (d : Bytes) : Bytes :=
  d.take (min cap d.length) ++ List.replicate (cap - min cap d.length) 0

/-- Modelled from the spec: the 32-byte output buffer of the synthetic
`blockhash` call after the dispatched child terminates.  Only a `Returning`
child writes return data through the fixed output policy; otherwise the
zero-initialized buffer is left untouched. -/
def fixedOutput32 (o : FrameOutcome) : H256 :=
  match o with
  | FrameOutcome.done _ d => beBytesToNat (writeFixed 32 d)
  | _ => 0

/-- `Ext::storage_at` (`externalities.rs:112`). -/
def Externalities.storage_at (e : Externalities) (key : H256) : Except EvmError H256 :=
  e.state.storage_at e.origin_info.address key

/-- `Ext::set_storage` (`externalities.rs:116`): rejected in a static frame,
otherwise delegated to the backend.  The pair carries the result and the
frame afterwards. -/
def Externalities.set_storage (e : Externalities) (key value : H256) :
    Except EvmError Unit × Externalities :=
  if e.static_flag then
    (Except.error EvmError.MutableCallInStaticContext, e)
  else
    match e.state.set_storage e.origin_info.address key value with
    | Except.ok s' => (Except.ok (), { e with state := s' })
    | Except.error err => (Except.error err, e)

/-- `Ext::balance` (`externalities.rs:136`). -/
def Externalities.balance (e : Externalities) (address : Address) : Except EvmError U256 :=
  e.state.balance address

/-- `Ext::origin_balance` (`externalities.rs:132`): the balance of the
frame's own address (the `address` field of the origin info). -/
def Externalities.origin_balance (e : Externalities) : Except EvmError U256 :=
  e.balance e.origin_info.address

/-- Result of `blockhash`, instrumented: `hash` is `none` exactly when the
pre-transition assertion on the last-hashes window fails (a panic in the
source), and `dispatched` records the synthetic internal call issued by the
post-transition regime, if any. -/
structure BlockhashResult where
  hash : Option H256
  dispatched : Option ActionParams
  deriving Repr, DecidableEq

/-- `Ext::blockhash` (`externalities.rs:140`).  The state and substate
effects of the dispatched synthetic call are not modelled (the executor is
an oracle). -/
def Externalities.blockhash (e : Externalities) (number : U256) : BlockhashResult :=
  if e.env_info.number + 256 ≥ e.engine_params.eip210_transition then
    let blockhash_contract_address := e.engine_params.eip210_contract_address
    match e.state.code blockhash_contract_address,
          e.state.code_hash blockhash_contract_address with
    | Except.ok code, Except.ok code_hash =>
      let params : ActionParams := {
        sender := e.origin_info.address
        address := blockhash_contract_address
        value := ActionValue.Apparent e.origin_info.value
        code_address := blockhash_contract_address
        origin := e.origin_info.origin
        gas := e.engine_params.eip210_contract_gas
        gas_price := 0
        code := code
        code_hash := some code_hash
        data := some (natToBeBytes32 number)
        call_type := CallType.Call }
      { hash := some (fixedOutput32 (e.exec.call_outcome params))
        dispatched := some params }
    | _, _ => { hash := some 0, dispatched := none }
  else
    if number < e.env_info.number ∧
        number % 2 ^ 64 ≥ max 256 e.env_info.number - 256 then
      let index := e.env_info.number - number % 2 ^ 64 - 1
      match e.env_info.last_hashes.get? index with
      | some h => { hash := some h, dispatched := none }
      | none => { hash := none, dispatched := none }
    else
      { hash := some 0, dispatched := none }

/-- The action parameters of the synthetic `blockhash` call, as constructed
by the post-transition branch of `Externalities.blockhash` when the backend
reads succeed. -/
def blockhashParams (e : Externalities) (number : U256) : ActionParams :=
  { sender := e.origin_info.address
    address := e.engine_params.eip210_contract_address
    value := ActionValue.Apparent e.origin_info.value
    code_address := e.engine_params.eip210_contract_address
    origin := e.origin_info.origin
    gas := e.engine_params.eip210_contract_gas
    gas_price := 0
    code := (e.state.accounts e.engine_params.eip210_contract_address).code
    code_hash := some ((e.state.accounts e.engine_params.eip210_contract_address).code_hash)
    data := some (natToBeBytes32 number)
    call_type := CallType.Call }

/-- Result of `create`, instrumented: `frame` is the environment afterwards
(nonce increment and created-contract bookkeeping), `dispatched` records the
child action parameters handed to the executor, if any. -/
structure CreateResultR where
  result : ContractCreateResult
  frame : Externalities
  dispatched : Option ActionParams

/-- Tail of `Ext::create` (`externalities.rs:219`): dispatch the child and
fold its terminal into a `ContractCreateResult`; only a `Returning` child
yields `Created` and records the new address. -/
def Externalities.create_finish (e : Externalities) (params : ActionParams)
    (address : Address) : CreateResultR :=
  match e.exec.create_outcome params with
  | FrameOutcome.done gas_left _ =>
    { result := ContractCreateResult.Created address gas_left
      frame := { e with substate :=
        { e.substate with contracts_created := e.substate.contracts_created ++ [address] } }
      dispatched := some params }
  | _ =>
    { result := ContractCreateResult.Failed, frame := e, dispatched := some params }

/-- `Ext::create` (`externalities.rs:188`): read the sender's nonce, derive
the new address, increment the nonce unless the sender is the unsigned
sentinel, then dispatch the child. -/
def Externalities.create (e : Externalities) (gas value : U256) (code : Bytes)
    (address_scheme : CreateContractAddress) : CreateResultR :=
  match e.state.nonce e.origin_info.address with
  | Except.error _ =>
    { result := ContractCreateResult.Failed, frame := e, dispatched := none }
  | Except.ok nonce =>
    let derived := e.exec.contract_address address_scheme e.origin_info.address nonce code
    let address := derived.1
    let params : ActionParams := {
      code_address := address
      address := address
      sender := e.origin_info.address
      origin := e.origin_info.origin
      gas := gas
      gas_price := e.origin_info.gas_price
      value := ActionValue.Transfer value
      code := some code
      code_hash := derived.2
      data := none
      call_type := CallType.None }
    if params.sender ≠ UNSIGNED_SENDER then
      match e.state.inc_nonce e.origin_info.address with
      | Except.error _ =>
        { result := ContractCreateResult.Failed, frame := e, dispatched := none }
      | Except.ok s' => Externalities.create_finish { e with state := s' } params address
    else
      Externalities.create_finish e params address

/-- Result of `call`, instrumented: `dispatched` records the child action
parameters handed to the executor, if any. -/
structure CallResultR where
  result : MessageCallResult
  dispatched : Option ActionParams

/-- `Ext::call` (`externalities.rs:231`): load code and code hash from
`code_address` (failure of either read yields `Failed`), build the child
parameters with an apparent value overridden to a transfer when a value is
supplied, and dispatch. -/
def Externalities.call (e : Externalities) (gas : U256)
    (sender_address receive_address : Address) (value : Option U256) (data : Bytes)
    (code_address : Address) (call_type : CallType) : CallResultR :=
  match e.state.code code_address, e.state.code_hash code_address with
  | Except.ok code, Except.ok code_hash =>
    let params0 : ActionParams := {
      sender := sender_address
      address := receive_address
      value := ActionValue.Apparent e.origin_info.value
      code_address := code_address
      origin := e.origin_info.origin
      gas := gas
      gas_price := e.origin_info.gas_price
      code := code
      code_hash := some code_hash
      data := some data
      call_type := call_type }
    let params := match value with
      | some v => { params0 with value := ActionValue.Transfer v }
      | none => params0
    match e.exec.call_outcome params with
    | FrameOutcome.done gas_left return_data =>
      { result := MessageCallResult.Success gas_left return_data, dispatched := some params }
    | _ => { result := MessageCallResult.Failed, dispatched := some params }
  | _, _ => { result := MessageCallResult.Failed, dispatched := none }

/-- The child action parameters `Externalities.call` dispatches when the
backend reads of `code_address` succeed: an apparent value inherited from
the origin info, overridden to a transfer when a value is supplied, and
code and code hash loaded from `code_address`. -/
def callParams (e : Externalities) (gas : U256) (sender_address receive_address : Address)
    (value : Option U256) (data : Bytes) (code_address : Address)
    (call_type : CallType) : ActionParams :=
  { sender := sender_address
    address := receive_address
    value := match value with
      | some v => ActionValue.Transfer v
      | none => ActionValue.Apparent e.origin_info.value
    code_address := code_address
    origin := e.origin_info.origin
    gas := gas
    gas_price := e.origin_info.gas_price
    code := (e.state.accounts code_address).code
    code_hash := some ((e.state.accounts code_address).code_hash)
    data := some data
    call_type := call_type }

/-- `Ext::ret` (`externalities.rs:286`): route the return data through the
frame's output policy.  The pair carries the result and the frame
afterwards (with its buffers updated). -/
def Externalities.ret (e : Externalities) (gas : U256) (data : Bytes) :
    Except EvmError U256 × Externalities :=
  match e.output with
  | OutputPolicy.Return (BytesRefM.Fixed slice) copy =>
    let copy' := copy.map (fun _ => data)
    let len := min slice.length data.length
    let slice' := data.take len ++ slice.drop len
    (Except.ok gas, { e with output := OutputPolicy.Return (BytesRefM.Fixed slice') copy' })
  | OutputPolicy.Return (BytesRefM.Flexible _) copy =>
    let copy' := copy.map (fun _ => data)
    (Except.ok gas, { e with output := OutputPolicy.Return (BytesRefM.Flexible data) copy' })
  | OutputPolicy.InitContract copy =>
    let return_cost := data.length * e.schedule.create_data_gas
    if return_cost > gas ∨ data.length > e.schedule.create_data_limit then
      match e.schedule.exceptional_failed_code_deposit with
      | true => (Except.error EvmError.OutOfGas, e)
      | false => (Except.ok gas, e)
    else
      let copy' := copy.map (fun _ => data)
      match e.state.init_code e.origin_info.address data with
      | Except.ok s' =>
        (Except.ok (gas - return_cost),
         { e with state := s', output := OutputPolicy.InitContract copy' })
      | Except.error err =>
        (Except.error err, { e with output := OutputPolicy.InitContract copy' })

/-- `Ext::log` (`externalities.rs:323`): rejected in a static frame,
otherwise appends a log entry for the frame's address to the substate. -/
def Externalities.log (e : Externalities) (topics : List H256) (data : Bytes) :
    Except EvmError Unit × Externalities :=
  if e.static_flag then
    (Except.error EvmError.MutableCallInStaticContext, e)
  else
    (Except.ok (),
     { e with substate :=
        { e.substate with logs := e.substate.logs ++
            [{ address := e.origin_info.address, topics := topics, data := data }] } })

/-- `Ext::suicide` (`externalities.rs:340`): rejected in a static frame;
otherwise zero the frame's own balance (`NoEmpty` mode) when refunding to
itself, or transfer the full balance under the substate-derived cleanup
mode, and record the frame's address in the suicide set. -/
def Externalities.suicide (e : Externalities) (refund_address : Address) :
    Except EvmError Unit × Externalities :=
  if e.static_flag then
    (Except.error EvmError.MutableCallInStaticContext, e)
  else
    let address := e.origin_info.address
    match e.balance address with
    | Except.error err => (Except.error err, e)
    | Except.ok balance =>
      let step : Except EvmError State :=
        if address = refund_address then
          e.state.sub_balance address balance CleanupMode.NoEmpty
        else
          e.state.transfer_balance address refund_address balance
            (e.substate.to_cleanup_mode e.schedule)
      match step with
      | Except.error err => (Except.error err, e)
      | Except.ok s' =>
        (Except.ok (),
         { e with state := s', substate :=
            { e.substate with suicides := e.substate.suicides.insert address } })

/-! Concrete fixtures used by the witness and counterexample theorems. -/

/-- An empty account. -/
def acct0 : Account :=
  { balance := 0, nonce := 0, code := none, code_hash := 0, storage := fun _ => 0 }

/-- A small world state: address 3 holds balance 50 and nonce 7, address 4
holds balance 60; nothing is corrupt. -/
def st0 : State :=
  { accounts := fun a =>
      if a = 3 then { acct0 with balance := 50, nonce := 7 }
      else if a = 4 then { acct0 with balance := 60 }
      else acct0
    corrupt := fun _ => false
    hashFn := fun _ => 42
    cleanup_trace := [] }

/-- The same world state with address 99 marked corrupt. -/
def stCor : State :=
  { st0 with corrupt := fun a => a = 99 }

def sub0 : Substate :=
  { logs := [], suicides := [], contracts_created := [], sstore_clears_count := 0,
    touched := [] }

def schedule0 : Schedule :=
  { create_data_gas := 10, create_data_limit := 100,
    exceptional_failed_code_deposit := true, no_empty := false, kill_dust := false }

def env0 : EnvInfo :=
  { number := 500, author := 0, timestamp := 0, difficulty := 0, last_hashes := [],
    gas_used := 0, gas_limit := 0 }

def eng0 : EngineParams :=
  { eip210_transition := 300, eip210_contract_address := 17,
    eip210_contract_gas := 1000 }

def orig0 : OriginInfo :=
  { address := 3, origin := 4, gas_price := 2, value := 9 }

/-- A benign executor oracle: calls return successfully with empty data,
creations fail, and address derivation is an injective toy function. -/
def oracle0 : ExecOracle :=
  { create_outcome := fun _ => FrameOutcome.failed EvmError.OutOfGas
    call_outcome := fun _ => FrameOutcome.done 0 []
    contract_address := fun _ sender nonce _ => (sender + nonce + 1, none) }

/-- The base non-static frame used by witnesses. -/
def frame0 : Externalities :=
  { state := st0, env_info := env0, engine_params := eng0, depth := 0,
    origin_info := orig0, substate := sub0, schedule := schedule0,
    output := OutputPolicy.InitContract none, static_flag := false, exec := oracle0 }

/-- A static frame. -/
def exStatic : Externalities := { frame0 with static_flag := true }

/-- A frame whose schedule discards failed code deposits silently. -/
def exNoExc : Externalities :=
  { frame0 with schedule := { schedule0 with exceptional_failed_code_deposit := false } }

/-- A frame whose state has a corrupt address (99). -/
def exCor : Externalities := { frame0 with state := stCor }

/-- Counterexample frame for the blockhash regime claim: the current block
number 44 lies strictly below the transition 300, yet 44 + 256 ≥ 300. -/
def exC3 : Externalities := { frame0 with env_info := { env0 with number := 44 } }

/-- Counterexample frame for the pre-transition blockhash claim: current
number 2, window `[5, 0]` (the hash of block 0 is the zero hash), transition
far away. -/
def exC4 : Externalities :=
  { frame0 with
    env_info := { env0 with number := 2, last_hashes := [5, 0] }
    engine_params := { eng0 with eip210_transition := 1000 } }

/-- Witness frame for the amended pre-transition blockhash claim: same as
`exC4` but with a window of nonzero hashes. -/
def exC4w : Externalities :=
  { frame0 with
    env_info := { env0 with number := 2, last_hashes := [5, 6] }
    engine_params := { eng0 with eip210_transition := 1000 } }

/-- Counterexample frame for the create-result claim: every dispatched child
execution terminates as `Reverting`. -/
def exC7 : Externalities :=
  { frame0 with exec :=
    { oracle0 with create_outcome := fun _ => FrameOutcome.reverted 7 [1, 2] } }

/-- The child action parameters `exC7`'s `create` dispatches for gas 100,
value 0, empty code and the sender-and-nonce scheme (sender 3, nonce 7,
derived address 11). -/
def pC7 : ActionParams :=
  { code_address := 11, code_hash := none, address := 11, sender := 3, origin := 4,
    gas := 100, gas_price := 2, value := ActionValue.Transfer 0, code := some [],
    data := none, call_type := CallType.None }

/-- A frame whose sender is the unsigned sentinel. -/
def exUnsigned : Externalities :=
  { frame0 with origin_info := { orig0 with address := UNSIGNED_SENDER } }

/-- A frame with a fixed-capacity output slice of length 4 and a copy sink. -/
def exFix : Externalities :=
  { frame0 with output := OutputPolicy.Return (BytesRefM.Fixed [7, 7, 7, 7]) (some [9]) }

/-- A frame with a growable output buffer and a copy sink. -/
def exFlex : Externalities :=
  { frame0 with output := OutputPolicy.Return (BytesRefM.Flexible [1]) (some [9]) }

/-! Helper lemmas: the modelled backend operations fail only with
`Internal` errors, never with `MutableCallInStaticContext`. -/

theorem State.balance_not_static (s : State) (a : Address) :
    s.balance a ≠ Except.error EvmError.MutableCallInStaticContext := by
  unfold State.balance; split <;> simp

theorem State.set_storage_not_static (s : State) (a : Address) (k v : H256) :
    s.set_storage a k v ≠ Except.error EvmError.MutableCallInStaticContext := by
  unfold State.set_storage; split <;> simp

theorem State.sub_balance_not_static (s : State) (a : Address) (amount : U256)
    (mode : CleanupMode) :
    s.sub_balance a amount mode ≠ Except.error EvmError.MutableCallInStaticContext := by
  unfold State.sub_balance; split <;> simp

theorem State.transfer_balance_not_static (s : State) (src dst : Address)
    (amount : U256) (mode : CleanupMode) :
    s.transfer_balance src dst amount mode ≠
      Except.error EvmError.MutableCallInStaticContext := by
  unfold State.transfer_balance; split <;> simp

/-- Claim C1: in a frame whose static flag is set, each of `set_storage`,
`log` and `suicide` returns `MutableCallInStaticContext` and leaves the
frame (state and substate) unchanged; in a frame whose static flag is
clear, none of the three ever returns that error. -/
theorem C1_static_guard (e : Externalities) (key value : H256) (topics : List H256)
    (d : Bytes) (r : Address) :
    (e.static_flag = true →
      e.set_storage key value = (Except.error EvmError.MutableCallInStaticContext, e) ∧
      e.log topics d = (Except.error EvmError.MutableCallInStaticContext, e) ∧
      e.suicide r = (Except.error EvmError.MutableCallInStaticContext, e)) ∧
    (e.static_flag = false →
      (e.set_storage key value).1 ≠ Except.error EvmError.MutableCallInStaticContext ∧
      (e.log topics d).1 ≠ Except.error EvmError.MutableCallInStaticContext ∧
      (e.suicide r).1 ≠ Except.error EvmError.MutableCallInStaticContext) := by
  constructor
  · intro hs
    refine ⟨?_, ?_, ?_⟩ <;>
      simp [Externalities.set_storage, Externalities.log, Externalities.suicide, hs]
  · intro hs
    refine ⟨?_, ?_, ?_⟩
    · simp only [Externalities.set_storage, hs, Bool.false_eq_true, if_false]
      cases h : e.state.set_storage e.origin_info.address key value with
      | ok s' => simp
      | error err =>
        simp only [ne_eq, Prod.fst, Except.error.injEq]
        rintro rfl
        exact State.set_storage_not_static _ _ _ _ h
    · simp [Externalities.log, hs]
    · simp only [Externalities.suicide, hs, Bool.false_eq_true, if_false]
      cases hb : e.balance e.origin_info.address with
      | error err =>
        simp only [ne_eq, Prod.fst, Except.error.injEq]
        rintro rfl
        exact State.balance_not_static _ _ hb
      | ok bal =>
        by_cases hr : e.origin_info.address = r
        · simp only [hr, if_true]
          cases hsub : e.state.sub_balance r bal CleanupMode.NoEmpty with
          | ok s' => simp [hr, hsub]
          | error err =>
            simp only [hr, hsub, ne_eq, Prod.fst, Except.error.injEq]
            rintro rfl
            exact State.sub_balance_not_static _ _ _ _ hsub
        · simp only [hr, if_false]
          cases htr : e.state.transfer_balance e.origin_info.address r bal
              (e.substate.to_cleanup_mode e.schedule) with
          | ok s' => simp [hr, htr]
          | error err =>
            simp only [hr, htr, ne_eq, Prod.fst, Except.error.injEq]
            rintro rfl
            exact State.transfer_balance_not_static _ _ _ _ _ htr

/-- Witness for C1: the static frame `exStatic` rejects all three
operations unchanged, and on the non-static `frame0` `set_storage` does not
produce the static-context error. -/
theorem C1_static_guard_witness :
    exStatic.set_storage 1 2 = (Except.error EvmError.MutableCallInStaticContext, exStatic) ∧
    exStatic.log [5] [6] = (Except.error EvmError.MutableCallInStaticContext, exStatic) ∧
    exStatic.suicide 8 = (Except.error EvmError.MutableCallInStaticContext, exStatic) ∧
    (frame0.set_storage 1 2).1 ≠ Except.error EvmError.MutableCallInStaticContext ∧
    (frame0.log [5] [6]).1 ≠ Except.error EvmError.MutableCallInStaticContext ∧
    (frame0.suicide 8).1 ≠ Except.error EvmError.MutableCallInStaticContext := by
  have hst := (C1_static_guard exStatic 1 2 [5] [6] 8).1 rfl
  have hns := (C1_static_guard frame0 1 2 [5] [6] 8).2 rfl
  exact ⟨hst.1, hst.2.1, hst.2.2, hns.1, hns.2.1, hns.2.2⟩

/-- Claim C2: under the `InitContract` output policy with gas `g` and data
`d`, let `cost = d.length * create_data_gas`.  If `cost > g` or `d.length`
exceeds `create_data_limit`, `ret` fails with `OutOfGas` when
`exceptional_failed_code_deposit` is set and otherwise returns `g`
unchanged with the frame untouched; otherwise (and when the backend is not
corrupt at the frame's address) it installs `d` as the code of the frame's
address and returns `g - cost`. -/
theorem C2_ret_init_contract (e : Externalities) (gas : U256) (data : Bytes)
    (copy : Option Bytes) (hout : e.output = OutputPolicy.InitContract copy) :
    ((data.length * e.schedule.create_data_gas > gas ∨
      data.length > e.schedule.create_data_limit) →
      (e.schedule.exceptional_failed_code_deposit = true →
        e.ret gas data = (Except.error EvmError.OutOfGas, e)) ∧
      (e.schedule.exceptional_failed_code_deposit = false →
        e.ret gas data = (Except.ok gas, e))) ∧
    (¬(data.length * e.schedule.create_data_gas > gas ∨
       data.length > e.schedule.create_data_limit) →
      e.state.corrupt e.origin_info.address = false →
      (e.ret gas data).1 = Except.ok (gas - data.length * e.schedule.create_data_gas) ∧
      ((e.ret gas data).2.state.accounts e.origin_info.address).code = some data) := by
  constructor
  · intro hfail
    constructor
    · intro hexc
      simp [Externalities.ret, hout, hfail, hexc]
    · intro hexc
      simp [Externalities.ret, hout, hfail, hexc]
  · intro hok hcor
    simp [Externalities.ret, hout, hok, State.init_code, hcor, State.update]

/-- Witness for C2: on `frame0` (cost 30) a budget of 5 triggers `OutOfGas`,
on `exNoExc` the same budget is returned untouched, and a budget of 100
installs the code and returns 70. -/
theorem C2_ret_init_contract_witness :
    frame0.ret 5 [1, 2, 3] = (Except.error EvmError.OutOfGas, frame0) ∧
    exNoExc.ret 5 [1, 2, 3] = (Except.ok 5, exNoExc) ∧
    (frame0.ret 100 [1, 2, 3]).1 = Except.ok 70 ∧
    ((frame0.ret 100 [1, 2, 3]).2.state.accounts 3).code = some [1, 2, 3] := by
  have h1 := ((C2_ret_init_contract frame0 5 [1, 2, 3] none rfl).1 (by decide)).1 rfl
  have h2 := ((C2_ret_init_contract exNoExc 5 [1, 2, 3] none rfl).1 (by decide)).2 rfl
  have h3 := (C2_ret_init_contract frame0 100 [1, 2, 3] none rfl).2 (by decide) rfl
  exact ⟨h1, h2, h3.1, h3.2⟩

/-- Claim C3 (amended): `blockhash` performs the synthetic internal call —
to the configured eip210 contract, with `value = Apparent` of the frame's
origin-info value, input the queried number as a 32-byte big-endian hash,
gas the configured allowance, returning the contract's 32-byte output — if
and only if the current block number **plus 256** is at or after the
configured eip210 transition (and the backend read of the contract's code
succeeds; on a backend error in that regime it returns zero without
dispatching).  Below that bound it uses the environment's last-hashes
window instead.  The claim as frozen, with the bound at the transition
itself, is refuted by `C3_counterexample`. -/
theorem C3_blockhash_regime (e : Externalities) (n : U256) :
    ((e.blockhash n).dispatched.isSome = true ↔
      (e.env_info.number + 256 ≥ e.engine_params.eip210_transition ∧
       e.state.corrupt e.engine_params.eip210_contract_address = false)) ∧
    (∀ p, (e.blockhash n).dispatched = some p →
      p.address = e.engine_params.eip210_contract_address ∧
      p.code_address = e.engine_params.eip210_contract_address ∧
      p.sender = e.origin_info.address ∧
      p.origin = e.origin_info.origin ∧
      p.value = ActionValue.Apparent e.origin_info.value ∧
      p.gas = e.engine_params.eip210_contract_gas ∧
      p.gas_price = 0 ∧
      p.call_type = CallType.Call ∧
      p.data = some (natToBeBytes32 n) ∧
      p.code = (e.state.accounts e.engine_params.eip210_contract_address).code ∧
      p.code_hash = some ((e.state.accounts e.engine_params.eip210_contract_address).code_hash) ∧
      (e.blockhash n).hash = some (fixedOutput32 (e.exec.call_outcome p))) ∧
    (e.env_info.number + 256 ≥ e.engine_params.eip210_transition →
      e.state.corrupt e.engine_params.eip210_contract_address = true →
      e.blockhash n = { hash := some 0, dispatched := none }) := by
  by_cases hreg : e.env_info.number + 256 ≥ e.engine_params.eip210_transition
  · by_cases hcor : e.state.corrupt e.engine_params.eip210_contract_address = true
    · refine ⟨?_, ?_, ?_⟩
      · simp [Externalities.blockhash, hreg, State.code, hcor]
      · intro p hp
        simp [Externalities.blockhash, hreg, State.code, hcor] at hp
      · intro _ _
        simp [Externalities.blockhash, hreg, State.code, hcor]
    · have hcor' : e.state.corrupt e.engine_params.eip210_contract_address = false :=
        Bool.not_eq_true _ ▸ (by simpa using hcor)
      have hbh : (e.blockhash n).dispatched = some (blockhashParams e n) := by
        simp [Externalities.blockhash, hreg, State.code, State.code_hash, hcor',
          blockhashParams]
      refine ⟨?_, ?_, ?_⟩
      · rw [hbh]; simp [hreg, hcor']
      · intro p hp
        rw [hbh] at hp
        obtain rfl := Option.some.inj hp
        refine ⟨rfl, rfl, rfl, rfl, rfl, rfl, rfl, rfl, rfl, rfl, rfl, ?_⟩
        simp [Externalities.blockhash, hreg, State.code, State.code_hash, hcor',
          blockhashParams]
      · intro _ hc
        rw [hc] at hcor'
        cases hcor'
  · have hd : (e.blockhash n).dispatched = none := by
      simp only [Externalities.blockhash, if_neg hreg]
      split
      · split <;> rfl
      · rfl
    refine ⟨?_, ?_, ?_⟩
    · rw [hd]; simp [hreg]
    · intro p hp
      rw [hd] at hp
      cases hp
    · intro h
      exact absurd h hreg

/-- Counterexample to C3 as frozen: in `exC3` the current block number 44
is strictly below the transition 300, yet `blockhash` dispatches the
synthetic internal call (because 44 + 256 ≥ 300) instead of using the
last-hashes window. -/
theorem C3_counterexample :
    exC3.env_info.number < exC3.engine_params.eip210_transition ∧
    (exC3.blockhash 10).dispatched.isSome = true := by
  exact ⟨by decide, rfl⟩

/-- Witness for C3 (amended): `frame0` (current number 500, transition 300)
dispatches the synthetic call and returns the oracle's 32-byte output. -/
theorem C3_blockhash_regime_witness :
    (frame0.blockhash 7).dispatched.isSome = true ∧
    (frame0.blockhash 7).hash =
      some (fixedOutput32 (frame0.exec.call_outcome (blockhashParams frame0 7))) := by
  have h := C3_blockhash_regime frame0 7
  refine ⟨h.1.mpr ⟨by decide, rfl⟩, ?_⟩
  obtain ⟨-, -, -, -, -, -, -, -, -, -, -, hh⟩ :=
    h.2.1 (blockhashParams frame0 7) (by rfl)
  exact hh

/-- Claim C4 (amended): in the pre-transition regime (current block number
plus 256 still below the transition, current number a machine word),
`blockhash h` returns the zero hash whenever `h` lies outside
`[max 256 current - 256, current)`; for `h` inside the interval it returns
entry `current - h - 1` of the last-hashes window (`none`, the modelled
panic, exactly when the window is shorter than `current - h`); and when
every entry of the window is nonzero the result for an inside `h` is never
the zero hash.  The frozen claim's "zero iff outside" is refuted by
`C4_counterexample`, where an inside entry is itself zero. -/
theorem C4_pre_transition (e : Externalities) (h : U256)
    (hpre : e.env_info.number + 256 < e.engine_params.eip210_transition)
    (hw : e.env_info.number < 2 ^ 64) :
    ((¬(max 256 e.env_info.number - 256 ≤ h ∧ h < e.env_info.number)) →
      (e.blockhash h).hash = some 0) ∧
    ((max 256 e.env_info.number - 256 ≤ h ∧ h < e.env_info.number) →
      (e.blockhash h).hash = e.env_info.last_hashes.get? (e.env_info.number - h - 1)) ∧
    ((max 256 e.env_info.number - 256 ≤ h ∧ h < e.env_info.number) →
      e.env_info.number - h ≤ e.env_info.last_hashes.length →
      (∀ x ∈ e.env_info.last_hashes, x ≠ 0) →
      (e.blockhash h).hash ≠ some 0) := by
  have hreg : ¬(e.env_info.number + 256 ≥ e.engine_params.eip210_transition) :=
    not_le.mpr hpre
  have key : (max 256 e.env_info.number - 256 ≤ h ∧ h < e.env_info.number) →
      (e.blockhash h).hash = e.env_info.last_hashes.get? (e.env_info.number - h - 1) := by
    intro hin
    have hmod : h % 2 ^ 64 = h := Nat.mod_eq_of_lt (hin.2.trans hw)
    have hcond : h < e.env_info.number ∧
        h % 2 ^ 64 ≥ max 256 e.env_info.number - 256 :=
      ⟨hin.2, by rw [hmod]; exact hin.1⟩
    simp only [Externalities.blockhash, if_neg hreg]
    rw [if_pos hcond, hmod]
    cases hget : e.env_info.last_hashes.get? (e.env_info.number - h - 1) with
    | some x => simp [hget]
    | none => simp [hget]
  refine ⟨?_, key, ?_⟩
  · intro hout
    have hcond : ¬(h < e.env_info.number ∧
        h % 2 ^ 64 ≥ max 256 e.env_info.number - 256) := by
      rintro ⟨h1, h2⟩
      exact hout ⟨by rwa [Nat.mod_eq_of_lt (h1.trans hw)] at h2, h1⟩
    simp only [Externalities.blockhash, if_neg hreg, if_neg hcond]
  · intro hin hlen hnz
    have hidx : e.env_info.number - h - 1 < e.env_info.last_hashes.length := by
      have hpos : 0 < e.env_info.number - h := Nat.sub_pos_of_lt hin.2
      exact lt_of_lt_of_le (Nat.sub_lt hpos Nat.one_pos) hlen
    rw [key hin, List.get?_eq_get hidx]
    intro hcontra
    exact hnz _ (List.get_mem _ _ _) (Option.some.inj hcontra)

/-- Counterexample to C4 as frozen: in `exC4` (current number 2, window
`[5, 0]`, pre-transition) the height 0 lies inside the interval and the
window is long enough, yet `blockhash 0` returns the zero hash, because the
stored hash of block 0 is itself zero. -/
theorem C4_counterexample :
    exC4.env_info.number + 256 < exC4.engine_params.eip210_transition ∧
    (max 256 exC4.env_info.number - 256 ≤ 0 ∧ 0 < exC4.env_info.number) ∧
    exC4.env_info.number - 0 ≤ exC4.env_info.last_hashes.length ∧
    (exC4.blockhash 0).hash = some 0 := by
  exact ⟨by decide, ⟨by decide, by decide⟩, by decide, rfl⟩

/-- Witness for C4 (amended): on `exC4w` (window `[5, 6]`, all nonzero)
height 0 is inside the interval and yields entry 6, never zero, while
height 5 is outside and yields zero. -/
theorem C4_pre_transition_witness :
    (exC4w.blockhash 0).hash = some 6 ∧
    (exC4w.blockhash 0).hash ≠ some 0 ∧
    (exC4w.blockhash 5).hash = some 0 := by
  have h0 := C4_pre_transition exC4w 0 (by decide) (by decide)
  have h5 := C4_pre_transition exC4w 5 (by decide) (by decide)
  refine ⟨?_, ?_, ?_⟩
  · have hx := h0.2.1 ⟨by decide, by decide⟩
    simpa using hx
  · exact h0.2.2 ⟨by decide, by decide⟩ (by decide) (by decide)
  · exact h5.1 (by decide)

/-- Claim C5: `call` dispatches child parameters whose value is
`Transfer v` when a value `v` is supplied and `Apparent` of the frame's
origin-info value snapshot otherwise; the child's code and code hash are
loaded from `code_address`, and a failing backend read there yields
`Failed` without dispatching. -/
theorem C5_call_value_and_code (e : Externalities) (gas : U256)
    (sender_address receive_address : Address) (value : Option U256) (data : Bytes)
    (code_address : Address) (call_type : CallType) :
    (e.state.corrupt code_address = true →
      (e.call gas sender_address receive_address value data code_address
        call_type).result = MessageCallResult.Failed ∧
      (e.call gas sender_address receive_address value data code_address
        call_type).dispatched = none) ∧
    (e.state.corrupt code_address = false →
      (e.call gas sender_address receive_address value data code_address
        call_type).dispatched.isSome = true ∧
      ∀ p, (e.call gas sender_address receive_address value data code_address
          call_type).dispatched = some p →
        p.value = (match value with
          | some v => ActionValue.Transfer v
          | none => ActionValue.Apparent e.origin_info.value) ∧
        p.code = (e.state.accounts code_address).code ∧
        p.code_hash = some ((e.state.accounts code_address).code_hash)) := by
  constructor
  · intro hcor
    constructor <;> simp [Externalities.call, State.code, hcor]
  · intro hcor
    have hd : (e.call gas sender_address receive_address value data code_address
        call_type).dispatched =
        some (callParams e gas sender_address receive_address value data code_address
          call_type) := by
      cases value with
      | none =>
        simp only [Externalities.call, State.code, State.code_hash, hcor,
          Bool.false_eq_true, if_false, callParams]
        split <;> rfl
      | some v =>
        simp only [Externalities.call, State.code, State.code_hash, hcor,
          Bool.false_eq_true, if_false, callParams]
        split <;> rfl
    constructor
    · rw [hd]; rfl
    · intro p hp
      rw [hd] at hp
      obtain rfl := Option.some.inj hp
      exact ⟨rfl, rfl, rfl⟩

/-- Witness for C5: reading code from the corrupt address 99 of `exCor`
fails the call; on `frame0` a supplied value of 11 dispatches a transfer of
11 (with code and hash read from address 5) and a missing value dispatches
an apparent value of 9. -/
theorem C5_call_value_and_code_witness :
    (exCor.call 10 1 2 none [3] 99 CallType.Call).result = MessageCallResult.Failed ∧
    (frame0.call 10 1 2 (some 11) [3] 5 CallType.Call).dispatched.isSome = true ∧
    (callParams frame0 10 1 2 (some 11) [3] 5 CallType.Call).value =
      ActionValue.Transfer 11 ∧
    (callParams frame0 10 1 2 none [3] 5 CallType.Call).value =
      ActionValue.Apparent 9 := by
  have h1 := (C5_call_value_and_code exCor 10 1 2 none [3] 99 CallType.Call).1 rfl
  have h2 := (C5_call_value_and_code frame0 10 1 2 (some 11) [3] 5 CallType.Call).2 rfl
  have h3 := (C5_call_value_and_code frame0 10 1 2 none [3] 5 CallType.Call).2 rfl
  have hv2 := (h2.2 (callParams frame0 10 1 2 (some 11) [3] 5 CallType.Call) (by rfl)).1
  have hv3 := (h3.2 (callParams frame0 10 1 2 none [3] 5 CallType.Call) (by rfl)).1
  exact ⟨h1.1, h2.1, hv2, hv3⟩

/-- Helper: the dispatch tail of `create` always records the dispatched
parameters, never touches the state, and only extends the created-contract
list. -/
theorem create_finish_parts (e : Externalities) (params : ActionParams)
    (address : Address) :
    (e.create_finish params address).dispatched = some params ∧
    (e.create_finish params address).frame.state = e.state := by
  unfold Externalities.create_finish
  split <;> exact ⟨rfl, rfl⟩

/-- Claim C6: `create` derives the new contract address from the sender's
nonce as read before any increment, and afterwards the sender's nonce is
incremented exactly when the sender is not the unsigned sentinel (assuming
the backend at the sender's address is not corrupt). -/
theorem C6_create_nonce (e : Externalities) (gas value : U256) (code : Bytes)
    (scheme : CreateContractAddress)
    (hc : e.state.corrupt e.origin_info.address = false) :
    (e.create gas value code scheme).dispatched.isSome = true ∧
    (∀ p, (e.create gas value code scheme).dispatched = some p →
      p.address = (e.exec.contract_address scheme e.origin_info.address
        (e.state.accounts e.origin_info.address).nonce code).1) ∧
    ((e.create gas value code scheme).frame.state.accounts e.origin_info.address).nonce =
      (if e.origin_info.address ≠ UNSIGNED_SENDER
       then (e.state.accounts e.origin_info.address).nonce + 1
       else (e.state.accounts e.origin_info.address).nonce) := by
  by_cases hu : e.origin_info.address ≠ UNSIGNED_SENDER
  · simp only [Externalities.create, State.nonce, hc, Bool.false_eq_true, if_false]
    rw [if_pos hu]
    simp only [State.inc_nonce, hc, Bool.false_eq_true, if_false]
    refine ⟨?_, ?_, ?_⟩
    · rw [(create_finish_parts _ _ _).1]; rfl
    · intro p hp
      rw [(create_finish_parts _ _ _).1] at hp
      obtain rfl := Option.some.inj hp
      rfl
    · rw [(create_finish_parts _ _ _).2, if_pos hu]
      simp [State.update]
  · simp only [Externalities.create, State.nonce, hc, Bool.false_eq_true, if_false]
    rw [if_neg hu]
    refine ⟨?_, ?_, ?_⟩
    · rw [(create_finish_parts _ _ _).1]; rfl
    · intro p hp
      rw [(create_finish_parts _ _ _).1] at hp
      obtain rfl := Option.some.inj hp
      rfl
    · rw [(create_finish_parts _ _ _).2, if_neg hu]

/-- Witness for C6: on `frame0` (sender 3, stored nonce 7) `create`
dispatches a child at the derived address and bumps the nonce to 8; on
`exUnsigned` (the sentinel sender) the nonce stays 0. -/
theorem C6_create_nonce_witness :
    (frame0.create 100 0 [] CreateContractAddress.FromSenderAndNonce).dispatched.isSome
      = true ∧
    ((frame0.create 100 0 []
        CreateContractAddress.FromSenderAndNonce).frame.state.accounts
          frame0.origin_info.address).nonce = 8 ∧
    ((exUnsigned.create 100 0 []
        CreateContractAddress.FromSenderAndNonce).frame.state.accounts
          exUnsigned.origin_info.address).nonce = 0 := by
  have h1 := C6_create_nonce frame0 100 0 [] CreateContractAddress.FromSenderAndNonce rfl
  have h2 := C6_create_nonce exUnsigned 100 0 [] CreateContractAddress.FromSenderAndNonce
    rfl
  refine ⟨h1.1, ?_, ?_⟩
  · rw [h1.2.2]; decide
  · rw [h2.2.2]; decide

/-- Helper: how the dispatch tail of `create` folds each child terminal
into a `ContractCreateResult`: only a `Returning` child yields `Created`
and records the address; `Reverting` and `Failing` children both yield
`Failed` with nothing recorded; `Reverted` is never produced. -/
theorem create_finish_cases (e : Externalities) (params : ActionParams)
    (address : Address) :
    (∀ gl d, (e.create_finish params address).result ≠
      ContractCreateResult.Reverted gl d) ∧
    (∀ gl d, e.exec.create_outcome params = FrameOutcome.done gl d →
      (e.create_finish params address).result = ContractCreateResult.Created address gl ∧
      (e.create_finish params address).frame.substate.contracts_created =
        e.substate.contracts_created ++ [address]) ∧
    (∀ gl d, e.exec.create_outcome params = FrameOutcome.reverted gl d →
      (e.create_finish params address).result = ContractCreateResult.Failed ∧
      (e.create_finish params address).frame.substate.contracts_created =
        e.substate.contracts_created) ∧
    (∀ err, e.exec.create_outcome params = FrameOutcome.failed err →
      (e.create_finish params address).result = ContractCreateResult.Failed ∧
      (e.create_finish params address).frame.substate.contracts_created =
        e.substate.contracts_created) := by
  unfold Externalities.create_finish
  cases ho : e.exec.create_outcome params with
  | done gl d =>
    refine ⟨?_, ?_, ?_, ?_⟩
    · intro gl' d'; simp
    · intro gl' d' h; cases h; exact ⟨rfl, rfl⟩
    · intro gl' d' h; cases h
    · intro err h; cases h
  | reverted gl d =>
    refine ⟨?_, ?_, ?_, ?_⟩
    · intro gl' d'; simp
    · intro gl' d' h; cases h
    · intro gl' d' h; cases h; exact ⟨rfl, rfl⟩
    · intro err h; cases h
  | failed err =>
    refine ⟨?_, ?_, ?_, ?_⟩
    · intro gl' d'; simp
    · intro gl' d' h; cases h
    · intro gl' d' h; cases h
    · intro err' h; cases h; exact ⟨rfl, rfl⟩

/-- Claim C7 (amended): `create` never returns `Reverted`; when the
dispatched child terminates as `Returning` the new address is recorded in
the substate's created-contract list and the result is
`Created(address, gas_left)`; when the child terminates as `Reverting` or
`Failing`, and likewise on backend errors while reading or incrementing the
nonce (where nothing is dispatched), the result is `Failed` and no address
is recorded.  The frozen claim's `Reverted(gas_left, data)` outcome for a
reverting child is refuted by `C7_counterexample`. -/
theorem C7_create_results (e : Externalities) (gas value : U256) (code : Bytes)
    (scheme : CreateContractAddress) :
    (∀ gl d, (e.create gas value code scheme).result ≠
      ContractCreateResult.Reverted gl d) ∧
    (∀ p, (e.create gas value code scheme).dispatched = some p →
      (∀ gl d, e.exec.create_outcome p = FrameOutcome.done gl d →
        (e.create gas value code scheme).result =
          ContractCreateResult.Created p.address gl ∧
        (e.create gas value code scheme).frame.substate.contracts_created =
          e.substate.contracts_created ++ [p.address]) ∧
      (∀ gl d, e.exec.create_outcome p = FrameOutcome.reverted gl d →
        (e.create gas value code scheme).result = ContractCreateResult.Failed ∧
        (e.create gas value code scheme).frame.substate.contracts_created =
          e.substate.contracts_created) ∧
      (∀ err, e.exec.create_outcome p = FrameOutcome.failed err →
        (e.create gas value code scheme).result = ContractCreateResult.Failed ∧
        (e.create gas value code scheme).frame.substate.contracts_created =
          e.substate.contracts_created)) ∧
    ((e.create gas value code scheme).dispatched = none →
      (e.create gas value code scheme).result = ContractCreateResult.Failed ∧
      (e.create gas value code scheme).frame = e) := by
  cases hcn : e.state.nonce e.origin_info.address with
  | error err =>
    refine ⟨?_, ?_, ?_⟩
    · intro gl d
      simp [Externalities.create, hcn]
    · intro p hp
      simp only [Externalities.create, hcn] at hp
      cases hp
    · intro _
      exact ⟨by simp [Externalities.create, hcn], by simp [Externalities.create, hcn]⟩
  | ok nonce =>
    simp only [Externalities.create, hcn]
    split
    · split
      · refine ⟨?_, ?_, ?_⟩
        · intro gl d; simp
        · intro p hp; simp at hp
        · intro _; exact ⟨rfl, rfl⟩
      · refine ⟨?_, ?_, ?_⟩
        · intro gl d; exact (create_finish_cases _ _ _).1 gl d
        · intro p hp
          rw [(create_finish_parts _ _ _).1] at hp
          obtain rfl := Option.some.inj hp
          exact ⟨fun gl d h => (create_finish_cases _ _ _).2.1 gl d h,
                 fun gl d h => (create_finish_cases _ _ _).2.2.1 gl d h,
                 fun err h => (create_finish_cases _ _ _).2.2.2 err h⟩
        · intro hp
          rw [(create_finish_parts _ _ _).1] at hp
          cases hp
    · refine ⟨?_, ?_, ?_⟩
      · intro gl d; exact (create_finish_cases _ _ _).1 gl d
      · intro p hp
        rw [(create_finish_parts _ _ _).1] at hp
        obtain rfl := Option.some.inj hp
        exact ⟨fun gl d h => (create_finish_cases _ _ _).2.1 gl d h,
               fun gl d h => (create_finish_cases _ _ _).2.2.1 gl d h,
               fun err h => (create_finish_cases _ _ _).2.2.2 err h⟩
      · intro hp
        rw [(create_finish_parts _ _ _).1] at hp
        cases hp

/-- Counterexample to C7 as frozen: in `exC7` every dispatched child
creation terminates as `Reverting` (with gas 7 and data `[1, 2]`), yet
`create` answers `Failed`, not `Reverted 7 [1, 2]`. -/
theorem C7_counterexample :
    exC7.exec.create_outcome pC7 = FrameOutcome.reverted 7 [1, 2] ∧
    (exC7.create 100 0 [] CreateContractAddress.FromSenderAndNonce).dispatched =
      some pC7 ∧
    (exC7.create 100 0 [] CreateContractAddress.FromSenderAndNonce).result =
      ContractCreateResult.Failed ∧
    (exC7.create 100 0 [] CreateContractAddress.FromSenderAndNonce).result ≠
      ContractCreateResult.Reverted 7 [1, 2] := by
  refine ⟨rfl, rfl, rfl, by decide⟩

/-- Witness for C7 (amended): on `exC7` the reverting child makes `create`
answer `Failed` with nothing recorded, and on `frame0` (whose children all
fail) `create` also answers `Failed`. -/
theorem C7_create_results_witness :
    (exC7.create 100 0 [] CreateContractAddress.FromSenderAndNonce).result =
      ContractCreateResult.Failed ∧
    (exC7.create 100 0 []
      CreateContractAddress.FromSenderAndNonce).frame.substate.contracts_created =
      exC7.substate.contracts_created ∧
    (frame0.create 100 0 [] CreateContractAddress.FromSenderAndNonce).result =
      ContractCreateResult.Failed := by
  have h7 := ((C7_create_results exC7 100 0 []
    CreateContractAddress.FromSenderAndNonce).2.1 pC7 rfl).2.1 7 [1, 2] rfl
  have h0 := ((C7_create_results frame0 100 0 []
    CreateContractAddress.FromSenderAndNonce).2.1 pC7 rfl).2.2 EvmError.OutOfGas rfl
  exact ⟨h7.1, h7.2, h0.1⟩

/-- Claim C8: in a non-static frame (with an uncorrupted backend),
`suicide refund` succeeds and inserts the frame's address — not the refund
address — into the substate's suicide set.  When the refund address equals
the frame's address the balance is zeroed by a subtraction under the
`NoEmpty` cleanup mode and no other account changes; otherwise the full
balance moves to the refund address under the cleanup mode derived from the
substate and the schedule. -/
theorem C8_suicide_semantics (e : Externalities) (refund_address : Address)
    (hs : e.static_flag = false)
    (hc : e.state.corrupt e.origin_info.address = false)
    (hr : e.state.corrupt refund_address = false) :
    (e.suicide refund_address).1 = Except.ok () ∧
    (e.suicide refund_address).2.substate.suicides =
      e.substate.suicides.insert e.origin_info.address ∧
    (refund_address = e.origin_info.address →
      ((e.suicide refund_address).2.state.accounts e.origin_info.address).balance = 0 ∧
      (∀ b, b ≠ e.origin_info.address →
        (e.suicide refund_address).2.state.accounts b = e.state.accounts b) ∧
      (e.suicide refund_address).2.state.cleanup_trace =
        e.state.cleanup_trace ++ [CleanupMode.NoEmpty]) ∧
    (refund_address ≠ e.origin_info.address →
      ((e.suicide refund_address).2.state.accounts e.origin_info.address).balance = 0 ∧
      ((e.suicide refund_address).2.state.accounts refund_address).balance =
        (e.state.accounts refund_address).balance +
          (e.state.accounts e.origin_info.address).balance ∧
      (e.suicide refund_address).2.state.cleanup_trace =
        e.state.cleanup_trace ++ [e.substate.to_cleanup_mode e.schedule]) := by
  simp only [Externalities.suicide, hs, Bool.false_eq_true, if_false,
    Externalities.balance, State.balance, hc]
  by_cases hb : e.origin_info.address = refund_address
  · rw [if_pos hb]
    simp only [State.sub_balance, hc, Bool.false_eq_true, if_false]
    refine ⟨by trivial, by trivial, ?_, ?_⟩
    · intro _
      refine ⟨?_, ?_, ?_⟩
      · simp [State.update]
      · intro b hbne
        simp [State.update, hbne]
      · trivial
    · intro hne
      exact absurd hb.symm hne
  · rw [if_neg hb]
    simp only [State.transfer_balance, hc, hr, Bool.or_self, Bool.false_eq_true,
      if_false]
    refine ⟨by trivial, by trivial, ?_, ?_⟩
    · intro heq
      exact absurd heq.symm hb
    · intro _
      have hb' : refund_address ≠ e.origin_info.address := fun h => hb h.symm
      refine ⟨?_, ?_, ?_⟩
      · simp [State.update, hb, hb']
      · simp [State.update, hb, hb']
      · trivial

/-- Witness for C8: on `frame0` (address 3, balance 50) a self-refund
zeroes the balance under `NoEmpty` and records address 3; a refund to
address 4 (balance 60) moves the 50 there under the derived mode. -/
theorem C8_suicide_semantics_witness :
    (frame0.suicide 3).1 = Except.ok () ∧
    (frame0.suicide 3).2.substate.suicides = [3] ∧
    ((frame0.suicide 3).2.state.accounts frame0.origin_info.address).balance = 0 ∧
    (frame0.suicide 3).2.state.cleanup_trace = [CleanupMode.NoEmpty] ∧
    ((frame0.suicide 4).2.state.accounts 4).balance = 110 ∧
    ((frame0.suicide 4).2.state.accounts frame0.origin_info.address).balance = 0 ∧
    (frame0.suicide 4).2.state.cleanup_trace = [CleanupMode.ForceCreate] := by
  have hself := C8_suicide_semantics frame0 3 rfl rfl rfl
  have hother := C8_suicide_semantics frame0 4 rfl rfl rfl
  have hselfcase := hself.2.2.1 rfl
  have hothercase := hother.2.2.2 (by decide)
  refine ⟨hself.1, ?_, hselfcase.1, ?_, ?_, hothercase.1, ?_⟩
  · rw [hself.2.1]; decide
  · rw [hselfcase.2.2]; decide
  · rw [hothercase.2.1]; decide
  · rw [hothercase.2.2]; decide

/-- Claim C9: `ret` under a `Return` output policy succeeds with the gas
unchanged; a fixed-capacity slice receives the first
`min slice.length data.length` bytes of the data (its tail beyond the data
preserved, the rest of the data dropped), a growable buffer is replaced by
the full data, and in both cases the full data is copied to the optional
copy sink when present. -/
theorem C9_ret_return (e : Externalities) (gas : U256) (data : Bytes) :
    (∀ slice copy, e.output = OutputPolicy.Return (BytesRefM.Fixed slice) copy →
      e.ret gas data =
        (Except.ok gas,
         { e with output := (OutputPolicy.Return
             (BytesRefM.Fixed (data.take (min slice.length data.length) ++
               slice.drop (min slice.length data.length)))
             (copy.map (fun _ => data))) })) ∧
    (∀ buf copy, e.output = OutputPolicy.Return (BytesRefM.Flexible buf) copy →
      e.ret gas data =
        (Except.ok gas,
         { e with output := (OutputPolicy.Return (BytesRefM.Flexible data)
             (copy.map (fun _ => data))) })) := by
  constructor
  · intro slice copy hout
    simp [Externalities.ret, hout]
  · intro buf copy hout
    simp [Externalities.ret, hout]

/-- Witness for C9: on `exFix` (slice `[7,7,7,7]`, sink `[9]`) returning
`[1, 2]` fills the slice to `[1, 2, 7, 7]` and the sink with `[1, 2]`; on
`exFlex` returning `[1, 2, 3]` replaces the buffer and the sink with it. -/
theorem C9_ret_return_witness :
    exFix.ret 55 [1, 2] =
      (Except.ok 55, { exFix with output := (OutputPolicy.Return
        (BytesRefM.Fixed [1, 2, 7, 7]) (some [1, 2])) }) ∧
    exFlex.ret 55 [1, 2, 3] =
      (Except.ok 55, { exFlex with output := (OutputPolicy.Return
        (BytesRefM.Flexible [1, 2, 3]) (some [1, 2, 3])) }) := by
  have h1 := (C9_ret_return exFix 55 [1, 2]).1 [7, 7, 7, 7] (some [9]) rfl
  have h2 := (C9_ret_return exFlex 55 [1, 2, 3]).2 [1] (some [9]) rfl
  exact ⟨h1, h2⟩

/-- Claim C10: `origin_balance` reads the balance of the frame's own
address (the `address` field of the origin info), not of the transaction
origin; whenever the two differ and hold different balances (and the
backend reads succeed), the two queries disagree. -/
theorem C10_origin_balance (e : Externalities) :
    e.origin_balance = e.balance e.origin_info.address ∧
    (e.origin_info.address ≠ e.origin_info.origin →
      e.state.corrupt e.origin_info.address = false →
      e.state.corrupt e.origin_info.origin = false →
      (e.state.accounts e.origin_info.address).balance ≠
        (e.state.accounts e.origin_info.origin).balance →
      e.origin_balance ≠ e.balance e.origin_info.origin) := by
  refine ⟨rfl, ?_⟩
  intro hne hca hco hbal
  simp only [Externalities.origin_balance, Externalities.balance, State.balance,
    hca, hco, Bool.false_eq_true, if_false]
  intro h
  exact hbal (Except.ok.inj h)

/-- Witness for C10: in `frame0` the frame's address 3 holds 50 while the
origin 4 holds 60, and the two balance queries disagree. -/
theorem C10_origin_balance_witness :
    frame0.origin_balance = Except.ok 50 ∧
    frame0.balance frame0.origin_info.origin = Except.ok 60 ∧
    frame0.origin_balance ≠ frame0.balance frame0.origin_info.origin := by
  have h := (C10_origin_balance frame0).2 (by decide) rfl rfl (by decide)
  exact ⟨rfl, rfl, h⟩

end Parity
